import Mathlib

/-!
Verification of the docstringinator core against its specification.

The Python sources are modelled shallowly: each line of a source file is a
`List Char`, Python string operations are re-implemented over character lists,
and the line-scanning routines of `docstringinator/parser.py` together with the
orchestration logic of `docstringinator/core.py` are translated function by
function.  Exceptions are modelled with an explicit error type and `Except`.
-/

namespace Docstringinator

/-- Python whitespace characters, the default strip set of str.strip. -/
def isPySpace (c : Char) : Bool :=
  c == ' ' || c == '\t' || c == '\n' || c == '\r' || c == Char.ofNat 11 || c == Char.ofNat 12

/-- Model of Python str.strip: drop leading and trailing whitespace. -/
def pyStrip (l : List Char) : List Char :=
  ((l.dropWhile isPySpace).reverse.dropWhile isPySpace).reverse

/-- Model of Python str.startswith with one candidate prefix. -/
def startsWithChars (pre l : List Char) : Bool :=
  List.isPrefixOf pre l

/-- Model of Python str.endswith applied to a single character. -/
def endsWithColon (l : List Char) : Bool :=
  match l.getLast? with
  | some c => c == ':'
  | none => false

/-- The characters after the first colon of a line: Python
line_stripped[colon_index + 1 :] where colon_index = line_stripped.find of the colon. -/
def afterFirstColon (l : List Char) : List Char :=
  (l.dropWhile (fun c => !(c == ':'))).tail

/-- Model of Python substring containment (the in operator on str). -/
def containsSub (pat : List Char) : List Char → Bool
  | [] => pat.isEmpty
  | c :: rest => startsWithChars pat (c :: rest) || containsSub pat rest

/-- The single-quote character, used to spell the docstring delimiters. -/
def squoteChar : Char := Char.ofNat 39

/-- A stripped line that the scan of _get_function_signature_end_line skips:
blank, or a pure comment. -/
def skipLine (ls : List Char) : Bool :=
  ls.isEmpty || startsWithChars ("#".data) ls

/-- A stripped line on which the scan of _get_function_signature_end_line
returns: it ends with a colon, or everything after its first colon is
whitespace and/or a comment. -/
def colonTermLine (ls : List Char) : Bool :=
  endsWithColon ls ||
    (ls.contains ':' &&
      (let ac := pyStrip (afterFirstColon ls)
       ac.isEmpty || startsWithChars ("#".data) ac))

/-- Whether a raw (unstripped) line starts with a space or a tab. -/
def startsWithSpaceOrTab (l : List Char) : Bool :=
  match l.head? with
  | some c => c == ' ' || c == '\t'
  | none => false

/-- First break test of the scan: a line past the start that is not indented
and begins a new def, class or decorator. `s` is the 0-based declared start
line, `i` the 0-based index of the line, `raw` the unstripped line and `ls`
its stripped form. -/
def abortNewDef (s i : Nat) (raw ls : List Char) : Bool :=
  decide (s < i) && !ls.isEmpty && !startsWithSpaceOrTab raw &&
    (startsWithChars ("def ".data) ls || startsWithChars ("class ".data) ls ||
      startsWithChars ("@".data) ls)

/-- Second break test of the scan: a stripped line that looks like a docstring
opener, a return statement, or a pass statement. -/
def abortBody (ls : List Char) : Bool :=
  startsWithChars ("\"\"\"".data) ls ||
    startsWithChars [squoteChar, squoteChar, squoteChar] ls ||
    startsWithChars ("return ".data) ls ||
    startsWithChars ("pass".data) ls

/-- The loop of PythonParser._get_function_signature_end_line (parser.py).
`s` is the 0-based declared start line of the definition, `i` the 0-based
index in the whole file of the first line of `l`.  Returns the 1-based anchor
when a colon branch fires; `none` when the loop breaks or runs off the end,
in which case the caller falls back to `s + 1`. -/
def sigScanAux (s : Nat) : Nat → List (List Char) → Option Nat
  | _, [] => none
  | i, raw :: rest =>
    if skipLine (pyStrip raw) then sigScanAux s (i + 1) rest
    else if colonTermLine (pyStrip raw) then some (i + 1)
    else if abortNewDef s i raw (pyStrip raw) || abortBody (pyStrip raw) then none
    else sigScanAux s (i + 1) rest

/-- PythonParser._get_function_signature_end_line: the 1-based docstring
insertion anchor stored in DocstringInfo.line_number.  `s` is the 0-based
declared start line (node.lineno - 1); the fallback value is `s + 1`,
that is, node.lineno itself. -/
def get_function_signature_end_line (lines : List (List Char)) (s : Nat) : Nat :=
  (sigScanAux s s (lines.drop s)).getD (s + 1)

/-- A stripped line beginning a new def or class, the stop test of
PythonParser._get_function_end_line. -/
def startsDefOrClass (ls : List Char) : Bool :=
  startsWithChars ("def ".data) ls || startsWithChars ("class ".data) ls

/-- The loop of PythonParser._get_function_end_line: the first 0-based index
at or after `j` whose stripped line starts a def or class. -/
def funcFindAux : Nat → List (List Char) → Option Nat
  | _, [] => none
  | j, raw :: rest =>
    if startsDefOrClass (pyStrip raw) then some j else funcFindAux (j + 1) rest

/-- PythonParser._get_function_end_line: scan the lines after the declared
start line (`start1` = node.lineno, 1-based) for the next def or class;
the line before it is the end, else the number of lines. -/
def get_function_end_line (lines : List (List Char)) (start1 : Nat) : Nat :=
  (funcFindAux start1 (lines.drop start1)).getD lines.length

/-- One entry of the chain of parent links built by
_build_parent_relationships: the ancestors of a function node, nearest first. -/
inductive AstAncestor
  | classNode (name : String)
  | funcNode (name : String)
  | otherNode

/-- PythonParser._get_class_name: walk the parent links upward and return the
name of the first ClassDef found, at whatever distance. -/
def get_class_name : List AstAncestor → Option String
  | [] => none
  | AstAncestor.classNode n :: _ => some n
  | AstAncestor.funcNode _ :: rest => get_class_name rest
  | AstAncestor.otherNode :: rest => get_class_name rest

/-- Whether an ancestor entry is a class definition. -/
def isClassNode : AstAncestor → Bool
  | AstAncestor.classNode _ => true
  | _ => false

/-- Opening bracket characters of the grammar. -/
def isOpenBracket (c : Char) : Bool :=
  c == '(' || c == '[' || c == Char.ofNat 123

/-- Closing bracket characters of the grammar. -/
def isCloseBracket (c : Char) : Bool :=
  c == ')' || c == ']' || c == Char.ofNat 125

/-- Ground truth for the claim phrase "the colon that terminates the header",
per the language grammar, for source texts whose string literals contain no
colon, hash sign or bracket: scan the characters of one line at a given bracket
depth, stopping at a comment, and report whether a colon at depth zero occurs,
together with the bracket depth after the line. -/
def lineColonScan : Nat → List Char → Bool × Nat
  | d, [] => (false, d)
  | d, c :: rest =>
    if c == '#' then (false, d)
    else if c == ':' && d == 0 then (true, d)
    else if isOpenBracket c then lineColonScan (d + 1) rest
    else if isCloseBracket c then lineColonScan (d - 1) rest
    else lineColonScan d rest

/-- The 1-based number of the line holding the header-terminating colon:
the first line, scanning from 0-based index `i` at bracket depth `d`, that
contains a colon at bracket depth zero before any comment. -/
def headerTerminatorLine : Nat → Nat → List (List Char) → Option Nat
  | _, _, [] => none
  | i, d, raw :: rest =>
    match lineColonScan d raw with
    | (true, _) => some (i + 1)
    | (false, d2) => headerTerminatorLine (i + 1) d2 rest

/-- A multi-line signature in which a parameter annotation colon is followed
on its line only by a comment, the annotated type continuing on the next line:
    def g(
        a:  # comment
            int,
    ) -> bool:
        return True
This text parses, and the function g is eligible. -/
def exAnnotColon : List (List Char) :=
  [("def g(").data,
   ("    a:  # comment").data,
   ("        int,").data,
   (") -> bool:").data,
   ("    return True").data]

/-- A plain multi-line signature with the terminating colon on line 4. -/
def exMultiLineSig : List (List Char) :=
  [("def g(").data,
   ("    a,").data,
   ("    b,").data,
   (") -> bool:").data,
   ("    return True").data]

/-- A one-line function whose string default spans several lines and contains
a line that looks like a def:
    def f(s="""
    def g():
    """):
        pass
This text parses and contains exactly one function, f. -/
def exDefInString : List (List Char) :=
  [("def f(s=\"\"\"").data,
   ("def g():").data,
   ("\"\"\"):").data,
   ("    pass").data]

/-- A definition whose default value is a triple-quoted string laid out so
that the scan meets the docstring-opener break test before any colon test
fires:
    def f(s=(
    """x: y"""
    )):
        pass
This text parses and contains exactly one function, f. -/
def exStringDefault : List (List Char) :=
  [("def f(s=(").data,
   ("\"\"\"x: y\"\"\"").data,
   (")):").data,
   ("    pass").data]

/-- A line on which the scan of _get_function_signature_end_line neither
returns nor breaks: it is skipped as blank or comment, or it fails the colon
test and both break tests. -/
def scanPasses (s j : Nat) (raw : List Char) : Prop :=
  skipLine (pyStrip raw) = true ∨
    (colonTermLine (pyStrip raw) = false ∧
      abortNewDef s j raw (pyStrip raw) = false ∧
      abortBody (pyStrip raw) = false)

instance (s j : Nat) (raw : List Char) : Decidable (scanPasses s j raw) := by
  unfold scanPasses
  infer_instance

theorem getD_drop_eq {α : Type} (l : List α) :
    ∀ (i j : Nat) (d : α), (l.drop i).getD j d = l.getD (i + j) d := by
  induction l with
  | nil => intro i j d; simp
  | cons a l ih =>
    intro i j d
    cases i with
    | zero => simp
    | succ i =>
      simp only [List.drop_succ_cons, Nat.succ_add, List.getD_cons_succ]
      exact ih i j d

/-- When the signature-end scan returns through a colon branch, the line it
returns is the first non-skipped line satisfying the colon test, and no break
line precedes it. -/
theorem sigScanAux_some_spec (s : Nat) :
    ∀ (l : List (List Char)) (i r : Nat), sigScanAux s i l = some r →
    ∃ m, m < l.length ∧ r = i + m + 1 ∧
      skipLine (pyStrip (l.getD m [])) = false ∧
      colonTermLine (pyStrip (l.getD m [])) = true ∧
      ∀ j, j < m → scanPasses s (i + j) (l.getD j []) := by
  intro l
  induction l with
  | nil => intro i r h; simp [sigScanAux] at h
  | cons raw rest ih =>
    intro i r h
    rw [sigScanAux] at h
    by_cases h1 : skipLine (pyStrip raw) = true
    · rw [if_pos h1] at h
      obtain ⟨m, hm, hr, hskip, hcol, hpass⟩ := ih (i + 1) r h
      refine ⟨m + 1, Nat.succ_lt_succ hm, by omega, by simpa using hskip,
        by simpa using hcol, ?_⟩
      intro j hj
      cases j with
      | zero => exact Or.inl h1
      | succ j =>
        have hp := hpass j (by omega)
        have hx : i + 1 + j = i + (j + 1) := by omega
        rw [hx] at hp
        simpa using hp
    · rw [if_neg h1] at h
      simp only [Bool.not_eq_true] at h1
      by_cases h2 : colonTermLine (pyStrip raw) = true
      · rw [if_pos h2] at h
        injection h with hv
        refine ⟨0, by simp, by omega, ?_, ?_, ?_⟩
        · simpa using h1
        · simpa using h2
        · intro j hj; omega
      · rw [if_neg h2] at h
        simp only [Bool.not_eq_true] at h2
        by_cases h3 : (abortNewDef s i raw (pyStrip raw) || abortBody (pyStrip raw)) = true
        · rw [if_pos h3] at h
          exact Option.noConfusion h
        · rw [if_neg h3] at h
          simp only [Bool.not_eq_true, Bool.or_eq_false_iff] at h3
          obtain ⟨m, hm, hr, hskip, hcol, hpass⟩ := ih (i + 1) r h
          refine ⟨m + 1, Nat.succ_lt_succ hm, by omega, by simpa using hskip,
            by simpa using hcol, ?_⟩
          intro j hj
          cases j with
          | zero => exact Or.inr ⟨by simpa using h2, by simpa using h3.1, by simpa using h3.2⟩
          | succ j =>
            have hp := hpass j (by omega)
            have hx : i + 1 + j = i + (j + 1) := by omega
            rw [hx] at hp
            simpa using hp

/-- C1 amended: whenever the scan of _get_function_signature_end_line returns
through a colon branch, the resolved anchor is k + 1 where line index k (0-based)
is the first line at or after the declared start that is neither blank nor a
pure comment and satisfies the colon test — ends with a colon, or its first
colon is followed only by whitespace and/or a comment — and every earlier
scanned line is either skipped or passes through without triggering a break. -/
theorem signature_end_first_colon_line (lines : List (List Char)) (s r : Nat)
    (h : sigScanAux s s (lines.drop s) = some r) :
    ∃ k, s ≤ k ∧ k < lines.length ∧
      get_function_signature_end_line lines s = k + 1 ∧ r = k + 1 ∧
      skipLine (pyStrip (lines.getD k [])) = false ∧
      colonTermLine (pyStrip (lines.getD k [])) = true ∧
      ∀ j, j < k → s ≤ j → scanPasses s j (lines.getD j []) := by
  obtain ⟨m, hm, hr, hskip, hcol, hpass⟩ := sigScanAux_some_spec s (lines.drop s) s r h
  rw [List.length_drop] at hm
  refine ⟨s + m, by omega, by omega, ?_, by omega, ?_, ?_, ?_⟩
  · unfold get_function_signature_end_line
    rw [h]
    simpa using hr
  · rw [getD_drop_eq] at hskip; exact hskip
  · rw [getD_drop_eq] at hcol; exact hcol
  · intro j hj hsj
    have := hpass (j - s) (by omega)
    rw [getD_drop_eq] at this
    have hj' : s + (j - s) = j := by omega
    rw [hj'] at this
    exact this

/-- C1 witness input: the scan on exMultiLineSig returns 4 through the colon
branch, so the amended statement applies there. -/
theorem signature_end_first_colon_line_witness :
    ∃ k, 0 ≤ k ∧ k < exMultiLineSig.length ∧
      get_function_signature_end_line exMultiLineSig 0 = k + 1 ∧ 4 = k + 1 ∧
      skipLine (pyStrip (exMultiLineSig.getD k [])) = false ∧
      colonTermLine (pyStrip (exMultiLineSig.getD k [])) = true ∧
      ∀ j, j < k → 0 ≤ j → scanPasses 0 j (exMultiLineSig.getD j []) :=
  signature_end_first_colon_line exMultiLineSig 0 4 (by decide)

/-- When the signature-end scan meets a break line before any colon test
fires, it returns none. -/
theorem sigScanAux_none_spec (s : Nat) :
    ∀ (l : List (List Char)) (i m : Nat), m < l.length →
    skipLine (pyStrip (l.getD m [])) = false →
    colonTermLine (pyStrip (l.getD m [])) = false →
    (abortNewDef s (i + m) (l.getD m []) (pyStrip (l.getD m [])) ||
      abortBody (pyStrip (l.getD m []))) = true →
    (∀ j, j < m → scanPasses s (i + j) (l.getD j [])) →
    sigScanAux s i l = none := by
  intro l
  induction l with
  | nil => intro i m hm; simp at hm
  | cons raw rest ih =>
    intro i m hm hskip hcol habort hpass
    rw [sigScanAux]
    cases m with
    | zero =>
      simp only [List.getD_cons_zero] at hskip hcol habort
      rw [if_neg (by simp [hskip]), if_neg (by simp [hcol]),
        if_pos (by simpa using habort)]
    | succ m =>
      have h0 := hpass 0 (by omega)
      simp only [List.getD_cons_zero, Nat.add_zero] at h0
      simp only [List.getD_cons_succ] at hskip hcol habort
      have htail : sigScanAux s (i + 1) rest = none := by
        refine ih (i + 1) m (by simpa using Nat.lt_of_succ_lt_succ hm) hskip hcol ?_ ?_
        · have : i + 1 + m = i + (m + 1) := by omega
          rw [this]; exact habort
        · intro j hj
          have hp := hpass (j + 1) (by omega)
          simp only [List.getD_cons_succ] at hp
          have hx : i + (j + 1) = i + 1 + j := by omega
          rw [hx] at hp
          exact hp
      by_cases hb1 : skipLine (pyStrip raw) = true
      · rw [if_pos hb1]; exact htail
      · rcases h0 with h0 | ⟨hc, ha, hb⟩
        · exact absurd h0 hb1
        · rw [if_neg hb1, if_neg (by simp [hc]), if_neg (by simp [ha, hb])]
          exact htail

/-- C5 amended: if the scan meets, at line index k (0-based, at or after the
declared start line s), a line that is neither blank nor a comment, fails the
colon test, and triggers one of the break tests — a non-indented new
def/class/decorator line, or a line looking like a docstring opener, a return,
or a pass — while every earlier scanned line passes through, then the resolved
anchor is s + 1: the 1-based declared start line itself (not start line + 1). -/
theorem signature_end_abort_fallback (lines : List (List Char)) (s k : Nat)
    (hs : s ≤ k) (hk : k < lines.length)
    (h1 : skipLine (pyStrip (lines.getD k [])) = false)
    (h2 : colonTermLine (pyStrip (lines.getD k [])) = false)
    (h3 : (abortNewDef s k (lines.getD k []) (pyStrip (lines.getD k [])) ||
      abortBody (pyStrip (lines.getD k []))) = true)
    (h4 : ∀ j, j < k → s ≤ j → scanPasses s j (lines.getD j [])) :
    get_function_signature_end_line lines s = s + 1 := by
  have hnone : sigScanAux s s (lines.drop s) = none := by
    refine sigScanAux_none_spec s (lines.drop s) s (k - s) ?_ ?_ ?_ ?_ ?_
    · rw [List.length_drop]; omega
    · rw [getD_drop_eq]
      have : s + (k - s) = k := by omega
      rw [this]; exact h1
    · rw [getD_drop_eq]
      have : s + (k - s) = k := by omega
      rw [this]; exact h2
    · rw [getD_drop_eq]
      have : s + (k - s) = k := by omega
      rw [this]; exact h3
    · intro j hj
      rw [getD_drop_eq]
      exact h4 (s + j) (by omega) (by omega)
  unfold get_function_signature_end_line
  rw [hnone]
  rfl

/-- C5 witness input: on exStringDefault the break fires at line index 1
(the docstring-opener line), so the amended fallback statement applies. -/
theorem signature_end_abort_fallback_witness :
    get_function_signature_end_line exStringDefault 0 = 0 + 1 :=
  signature_end_abort_fallback exStringDefault 0 1 (by decide) (by decide)
    (by decide) (by decide) (by decide) (by decide)

theorem funcFindAux_ge :
    ∀ (l : List (List Char)) (j r : Nat), funcFindAux j l = some r → j ≤ r := by
  intro l
  induction l with
  | nil => intro j r h; simp [funcFindAux] at h
  | cons raw rest ih =>
    intro j r h
    rw [funcFindAux] at h
    by_cases hd : startsDefOrClass (pyStrip raw) = true
    · rw [if_pos hd] at h
      cases h
      exact Nat.le_refl _
    · rw [if_neg hd] at h
      have := ih (j + 1) r h
      omega

theorem funcFindAux_lower :
    ∀ (l : List (List Char)) (j t r : Nat),
    (∀ u, u < t → startsDefOrClass (pyStrip (l.getD u [])) = false) →
    funcFindAux j l = some r → j + t ≤ r := by
  intro l
  induction l with
  | nil => intro j t r _ h; simp [funcFindAux] at h
  | cons raw rest ih =>
    intro j t r hu h
    cases t with
    | zero => simpa using funcFindAux_ge (raw :: rest) j r h
    | succ t =>
      have h0 := hu 0 (by omega)
      simp only [List.getD_cons_zero] at h0
      rw [funcFindAux, if_neg (by simp [h0])] at h
      have := ih (j + 1) t r
        (fun u hut => by simpa using hu (u + 1) (by omega)) h
      omega

/-- C3 amended: header_line is at most body_end_line provided no line strictly
between the declared start line and the resolved header line begins, after
stripping, with def or class (a condition every ordinary signature satisfies;
it can fail only when such text occurs inside a multi-line string in the
signature, as in exDefInString). -/
theorem header_line_le_body_end_line (lines : List (List Char)) (s : Nat)
    (hs : s < lines.length)
    (hnd : ∀ j, j < get_function_signature_end_line lines s → s < j →
      startsDefOrClass (pyStrip (lines.getD j [])) = false) :
    get_function_signature_end_line lines s ≤ get_function_end_line lines (s + 1) := by
  cases hscan : sigScanAux s s (lines.drop s) with
  | none =>
    have hr : get_function_signature_end_line lines s = s + 1 := by
      unfold get_function_signature_end_line
      rw [hscan]
      rfl
    rw [hr]
    unfold get_function_end_line
    cases hf : funcFindAux (s + 1) (lines.drop (s + 1)) with
    | none => simpa using hs
    | some q => simpa using funcFindAux_ge _ (s + 1) q hf
  | some v =>
    obtain ⟨m, hm, hrv, _, _⟩ := sigScanAux_some_spec s (lines.drop s) s v hscan
    rw [List.length_drop] at hm
    have heq : get_function_signature_end_line lines s = s + m + 1 := by
      unfold get_function_signature_end_line
      rw [hscan]
      exact hrv
    have hk : s + m < lines.length := by omega
    have hsk : s ≤ s + m := by omega
    set k := s + m with hkdef
    rw [heq, show s + m + 1 = k + 1 from by omega]
    unfold get_function_end_line
    cases hf : funcFindAux (s + 1) (lines.drop (s + 1)) with
    | none => simpa using hk
    | some q =>
      have hlow : (s + 1) + (k - s) ≤ q := by
        refine funcFindAux_lower (lines.drop (s + 1)) (s + 1) (k - s) q ?_ hf
        intro u hut
        rw [getD_drop_eq]
        refine hnd (s + 1 + u) ?_ (by omega)
        rw [heq]
        omega
      simpa using by omega

/-- C3 witness input: on exMultiLineSig the header line is 4 and the body end
line is 5, and no def or class line lies strictly between start and header. -/
theorem header_line_le_body_end_line_witness :
    get_function_signature_end_line exMultiLineSig 0 ≤
      get_function_end_line exMultiLineSig (0 + 1) :=
  header_line_le_body_end_line exMultiLineSig 0 (by decide) (by decide)

/-- C1 counterexample: on exAnnotColon the resolved anchor is line 2 (the
annotation line whose colon is followed only by a comment), while the colon
that terminates the header is on line 4. -/
theorem anchor_ne_header_colon_line :
    get_function_signature_end_line exAnnotColon 0 = 2 ∧
    headerTerminatorLine 0 0 exAnnotColon = some 4 ∧ (2 : Nat) ≠ 4 := by
  refine ⟨by decide, by decide, by decide⟩

/-- C3 counterexample: on exDefInString the parser reports header_line = 2 and
body_end_line = 1, violating header_line <= body_end_line.  The declared start
line of f is 1, so the signature scan starts at 0-based index 0 and the body
scan at 1-based line 1. -/
theorem header_gt_body_end_counterexample :
    ¬ (get_function_signature_end_line exDefInString 0 ≤
        get_function_end_line exDefInString 1) := by
  decide

/-- C5 counterexample: on exStringDefault the scan aborts at the docstring
opener on line 2, and the resolved anchor is 1 — the declared start line
itself — not declared start line + 1 = 2 as the claim states. -/
theorem abort_fallback_counterexample :
    get_function_signature_end_line exStringDefault 0 = 1 ∧ (1 : Nat) ≠ 0 + 2 := by
  refine ⟨by decide, by decide⟩

/-- The parent chain of the inner method of
    class OuterClass:
        def outer_method(self):
            def inner_method(): ...
the nearest enclosing construct of inner_method is the function outer_method. -/
def exNestedChain : List AstAncestor :=
  [AstAncestor.funcNode "outer_method", AstAncestor.classNode "OuterClass",
   AstAncestor.otherNode]

/-- C4 counterexample: for a function nested directly inside another function
that is itself a method of OuterClass, _get_class_name returns the class name
OuterClass, while the claim requires None since the nearest enclosing
construct is a function. -/
theorem class_name_skips_enclosing_function :
    get_class_name exNestedChain = some "OuterClass" ∧
    exNestedChain.head? = some (AstAncestor.funcNode "outer_method") :=
  ⟨rfl, rfl⟩

/-- C4 amended: enclosing_type_name (class_name) is set iff some ancestor at
any distance in the parent chain is a class definition — not only when the
nearest enclosing construct is one. -/
theorem class_name_iff_some_ancestor_class (anc : List AstAncestor) :
    (get_class_name anc).isSome = true ↔ ∃ a ∈ anc, isClassNode a = true := by
  induction anc with
  | nil => simp [get_class_name]
  | cons a rest ih =>
    cases a with
    | classNode n => simp [get_class_name, isClassNode]
    | funcNode n => simpa [get_class_name, isClassNode] using ih
    | otherNode => simpa [get_class_name, isClassNode] using ih

/-- One parameter record assembled by PythonParser._extract_parameters. -/
structure ParamL where
  name : String
  ptype : String := "Any"
  default : Option String := none
  required : Bool := true

/-- The fields of the DocstringInfo model (models.py) consumed by the
orchestrator; line numbers are 1-based as produced by the parser. -/
structure DocstringInfoL where
  function_name : String
  class_name : Option String := none
  existing_docstring : Option String := none
  line_number : Nat
  end_line_number : Nat
  has_docstring : Bool
  return_type : Option String := none
  parameters : List ParamL := []

/-- Python truthiness of an optional string: None and the empty string are
falsy, every other string truthy. -/
def pyTruthy : Option String → Bool
  | none => false
  | some st => !st.data.isEmpty

/-- The stripped existing docstring of a record. -/
def strippedDoc (f : DocstringInfoL) : List Char :=
  pyStrip ((f.existing_docstring.getD "").data)

/-- The stripped existing docstring, lower-cased. -/
def lowerDoc (f : DocstringInfoL) : List Char :=
  (strippedDoc f).map Char.toLower

/-- Docstringinator._should_improve_docstring (core.py): False without a
truthy docstring; True when the stripped docstring is shorter than 20
characters; True when the record has parameters and the lower-cased docstring
mentions neither param nor arg; else the Python truthiness of
bool(return_type and not has_returns). -/
def should_improve_docstring (f : DocstringInfoL) : Bool :=
  if !f.has_docstring || !pyTruthy f.existing_docstring then false
  else if (strippedDoc f).length < 20 then true
  else if !f.parameters.isEmpty &&
      !(containsSub ("param".data) (lowerDoc f) ||
        containsSub ("arg".data) (lowerDoc f)) then true
  else pyTruthy f.return_type && !(containsSub ("return".data) (lowerDoc f))

/-- A record with a 32-character docstring mentioning neither parameters nor
returns, no parameters, and the textual return annotation None. -/
def exReturnNone : DocstringInfoL :=
  { function_name := "f",
    existing_docstring := some "A sufficiently long description.",
    line_number := 1, end_line_number := 2, has_docstring := true,
    return_type := some "None", parameters := [] }

/-- C8 counterexample: with return_type the text None, a long docstring and
no parameters, _should_improve_docstring returns True — the claim requires
False for a textual None return type. -/
theorem textual_none_return_counterexample :
    should_improve_docstring exReturnNone = true := by decide

/-- C8 amended: under the hypotheses of the claim (truthy docstring of stripped
length at least 20, parameter rule not firing), needs_improvement is True iff
return_type is a present non-empty string — the textual None included — and
the lower-cased docstring does not contain return. -/
theorem needs_improvement_return_rule (f : DocstringInfoL)
    (hd : f.has_docstring = true)
    (ht : pyTruthy f.existing_docstring = true)
    (hlen : 20 ≤ (strippedDoc f).length)
    (hpr : f.parameters = [] ∨ containsSub ("param".data) (lowerDoc f) = true ∨
      containsSub ("arg".data) (lowerDoc f) = true) :
    should_improve_docstring f =
      (pyTruthy f.return_type && !(containsSub ("return".data) (lowerDoc f))) := by
  unfold should_improve_docstring
  rw [hd, ht]
  rw [if_neg (by simp)]
  rw [if_neg (by omega)]
  rcases hpr with hpr | hpr | hpr
  · rw [if_neg (by simp [hpr])]
  · rw [if_neg (by simp [hpr])]
  · rw [if_neg (by simp [hpr])]

/-- C8 witness input: the amended rule applied to exReturnNone. -/
theorem needs_improvement_return_rule_witness :
    should_improve_docstring exReturnNone =
      (pyTruthy exReturnNone.return_type &&
        !(containsSub ("return".data) (lowerDoc exReturnNone))) :=
  needs_improvement_return_rule exReturnNone (by decide) (by decide) (by decide)
    (Or.inl rfl)

/-- C9: any record carrying the docstring "Returns something useful." and at
least one parameter needs improvement: the stripped length is 25, the
lower-cased text contains neither param nor arg, so the parameter rule fires
even though the text contains the return marker. -/
theorem example4_param_rule_fires (f : DocstringInfoL)
    (hd : f.has_docstring = true)
    (hdoc : f.existing_docstring = some "Returns something useful.")
    (hp : f.parameters ≠ []) :
    should_improve_docstring f = true := by
  have h1 : pyTruthy (some "Returns something useful.") = true := by decide
  have h2 : ¬ ((pyStrip (("Returns something useful.").data)).length < 20) := by decide
  have h3 : (containsSub ("param".data)
      ((pyStrip (("Returns something useful.").data)).map Char.toLower) ||
    containsSub ("arg".data)
      ((pyStrip (("Returns something useful.").data)).map Char.toLower)) = false := by
    decide
  have hs1 : strippedDoc f = pyStrip (("Returns something useful.").data) := by
    unfold strippedDoc
    rw [hdoc]
    rfl
  have hl1 : lowerDoc f =
      (pyStrip (("Returns something useful.").data)).map Char.toLower := by
    unfold lowerDoc
    rw [hs1]
  cases hpl : f.parameters with
  | nil => exact absurd hpl hp
  | cons p ps =>
    unfold should_improve_docstring
    rw [hd, hdoc, hs1, hl1, hpl]
    rw [if_neg (by simp [h1]), if_neg h2, if_pos (by simp [h3])]

/-- The record of def h(x: int) -> int with docstring
"Returns something useful.". -/
def exOneParam : DocstringInfoL :=
  { function_name := "h",
    existing_docstring := some "Returns something useful.",
    line_number := 1, end_line_number := 2, has_docstring := true,
    return_type := some "int",
    parameters := [{ name := "x", ptype := "int" }] }

/-- C9 witness input: the rule applied to the record of def h(x: int) -> int. -/
theorem example4_param_rule_fires_witness :
    should_improve_docstring exOneParam = true :=
  example4_param_rule_fires exOneParam rfl rfl (List.cons_ne_nil _ _)

/-- The Change model (models.py), without the file path. -/
structure ChangeL where
  line_number : Nat
  original_text : String
  new_text : String
  change_type : String
  description : String := ""

/-- Stable insertion into a list kept in descending line_number order. -/
def insertByLineDesc (c : ChangeL) : List ChangeL → List ChangeL
  | [] => [c]
  | d :: ds =>
    if c.line_number ≤ d.line_number then d :: insertByLineDesc c ds
    else c :: d :: ds

/-- The changes sorted by line_number descending, as in
sorted(changes, key=..., reverse=True). -/
def sortedByLineDesc (cs : List ChangeL) : List ChangeL :=
  cs.foldr insertByLineDesc []

/-- Docstringinator._apply_changes (core.py): read the lines, iterate the
changes sorted by line number descending with a loop whose body is pass, and
write the lines back. -/
def apply_changes (lines : List (List Char)) (changes : List ChangeL) :
    List (List Char) :=
  (sortedByLineDesc changes).foldl (fun acc _ => acc) lines

theorem foldl_keep_acc {α β : Type} (x : α) :
    ∀ (l : List β), List.foldl (fun acc _ => acc) x l = x
  | [] => rfl
  | _ :: bs => foldl_keep_acc x bs

/-- C2: _apply_changes writes the original lines back unchanged for every
input — no change of kind add (or modify) is ever realized in the rewritten
file, contradicting the rewrite contract of the spec and the
docstring-placement test of the repository. -/
theorem apply_changes_never_edits (lines : List (List Char))
    (changes : List ChangeL) :
    apply_changes lines changes = lines :=
  foldl_keep_acc lines (sortedByLineDesc changes)

/-- The exception kinds that reach the except clauses of the orchestrator. -/
inductive PyExc
  | parseErrorExc
  | processingErrorExc
  | fileNotFoundExc
  | valueErrorExc
  | osErrorExc
  | runtimeErrorExc
  | apiErrorExc

/-- One parsed function together with the outcome the LLM provider produces
for it: the content string of the response, or the exception the generation
call raises (providers raise APIError on transport failures). -/
structure FuncModel where
  info : DocstringInfoL
  gen : Except PyExc String

/-- Docstringinator._clean_docstring: strip one layer of enclosing triple
quotes, double or single, when present on both ends. -/
def clean_docstring (d : String) : String :=
  let l := d.data
  let tripD := ("\"\"\"").data
  let tripS := [squoteChar, squoteChar, squoteChar]
  if (startsWithChars tripD l && startsWithChars tripD.reverse l.reverse) ||
      (startsWithChars tripS l && startsWithChars tripS.reverse l.reverse) then
    String.mk ((l.take (l.length - 3)).drop 3)
  else d

/-- Docstringinator._process_function: generate, clean, and build the add or
modify Change; an OSError from the generation call is caught here and turned
into None; every other exception propagates. -/
def process_function (f : FuncModel) : Except PyExc (Option ChangeL) :=
  match f.gen with
  | Except.error PyExc.osErrorExc => Except.ok none
  | Except.error e => Except.error e
  | Except.ok content =>
    let nd := clean_docstring content
    if !f.info.has_docstring then
      Except.ok (some
        { line_number := f.info.line_number
          original_text := ""
          new_text := nd
          change_type := "add"
          description := "Add docstring to " ++ f.info.function_name })
    else
      Except.ok (some
        { line_number := f.info.line_number
          original_text := f.info.existing_docstring.getD ""
          new_text := nd
          change_type := "modify"
          description := "Improve docstring for " ++ f.info.function_name })

/-- The closure _process_single_function inside _process_file: ValueError,
RuntimeError and OSError escaping _process_function are converted into an
error string appended to the errors of the file; everything else propagates. -/
def process_single_function (f : FuncModel) :
    Except PyExc (Option ChangeL × Option String) :=
  match process_function f with
  | Except.ok c => Except.ok (c, none)
  | Except.error PyExc.valueErrorExc =>
    Except.ok (none, some ("Failed to process " ++ f.info.function_name))
  | Except.error PyExc.runtimeErrorExc =>
    Except.ok (none, some ("Failed to process " ++ f.info.function_name))
  | Except.error PyExc.osErrorExc =>
    Except.ok (none, some ("System error processing " ++ f.info.function_name))
  | Except.error e => Except.error e

/-- The per-function loop of _process_file: accumulate the produced changes
and error strings in order; an uncaught exception aborts the loop. -/
def process_functions : List FuncModel → Except PyExc (List ChangeL × List String)
  | [] => Except.ok ([], [])
  | f :: fs =>
    match process_single_function f with
    | Except.error e => Except.error e
    | Except.ok (c, msg) =>
      match process_functions fs with
      | Except.error e => Except.error e
      | Except.ok (cs, errs) =>
        Except.ok
          ((match c with | some ch => ch :: cs | none => cs),
           (match msg with | some m => m :: errs | none => errs))

/-- The filter of _process_file: keep the functions lacking a docstring or
whose docstring should be improved. -/
def target_functions (fs : List FuncModel) : List FuncModel :=
  fs.filter (fun f => !f.info.has_docstring || should_improve_docstring f.info)

/-- One file as the orchestrator sees it: whether its size check passes, and
the parse outcome — none models an ast parse failure (ParseError). -/
structure FileModel where
  size_ok : Bool := true
  parsed : Option (List FuncModel) := none

/-- The ProcessingResult model (models.py), without path, size and timing. -/
structure ProcessingResultL where
  changes : List ChangeL
  errors : List String
  warnings : List String
  success : Bool
  docstrings_found : Nat
  docstrings_modified : Nat
  docstrings_added : Nat

/-- The body of the try block of Docstringinator._process_file: size check
(ValueError when too large), parse (ParseError on failure), the per-function
loop, and the no-op _apply_changes when not in dry-run mode. -/
def process_file_body (dry_run : Bool) (fm : FileModel) :
    Except PyExc (List ChangeL × List String × Nat) :=
  if !fm.size_ok then Except.error PyExc.valueErrorExc
  else
    match fm.parsed with
    | none => Except.error PyExc.parseErrorExc
    | some funcs =>
      match process_functions (target_functions funcs) with
      | Except.error e => Except.error e
      | Except.ok (cs, errs) => Except.ok (cs, errs, funcs.length)

/-- Docstringinator._process_file: any exception raised inside the try block
is re-raised as ProcessingError; otherwise the ProcessingResult is assembled.
The dry-run flag only decides whether the no-op _apply_changes call runs, so
it does not affect the modelled state. -/
def process_file (dry_run : Bool) (fm : FileModel) :
    Except PyExc ProcessingResultL :=
  match process_file_body dry_run fm with
  | Except.error _ => Except.error PyExc.processingErrorExc
  | Except.ok (cs, errs, n) =>
    Except.ok
      { changes := cs, errors := errs, warnings := [],
        success := errs.isEmpty,
        docstrings_found := n,
        docstrings_modified := (cs.filter (fun c => c.change_type == "modify")).length,
        docstrings_added := (cs.filter (fun c => c.change_type == "add")).length }

/-- The exception kinds caught by the per-file except clauses of
Docstringinator._process_directory: (FileNotFoundError, ValueError) and
OSError. -/
def dir_caught : PyExc → Bool
  | PyExc.fileNotFoundExc => true
  | PyExc.valueErrorExc => true
  | PyExc.osErrorExc => true
  | _ => false

/-- The placeholder result _process_directory records for a caught per-file
failure. -/
def failed_result : ProcessingResultL :=
  { changes := [], errors := ["Failed to process"], warnings := [],
    success := false, docstrings_found := 0, docstrings_modified := 0,
    docstrings_added := 0 }

/-- The loop of Docstringinator._process_directory over the filtered files:
a caught exception contributes a failure result and the loop continues; any
other exception propagates out of the batch. -/
def process_directory (dry_run : Bool) :
    List FileModel → Except PyExc (List ProcessingResultL)
  | [] => Except.ok []
  | fm :: rest =>
    match process_file dry_run fm with
    | Except.ok r =>
      (match process_directory dry_run rest with
       | Except.error e => Except.error e
       | Except.ok rs => Except.ok (r :: rs))
    | Except.error e =>
      if dir_caught e then
        (match process_directory dry_run rest with
         | Except.error e2 => Except.error e2
         | Except.ok rs => Except.ok (failed_result :: rs))
      else Except.error e

/-- The loop of Docstringinator.fix_string: for every parsed function without
a docstring, call _process_function and discard the produced change. -/
def fix_string_loop : List FuncModel → Except PyExc Unit
  | [] => Except.ok ()
  | f :: fs =>
    if !f.info.has_docstring then
      match process_function f with
      | Except.error e => Except.error e
      | Except.ok _ => fix_string_loop fs
    else fix_string_loop fs

/-- Docstringinator.fix_string: parse the code string (ParseError on
failure), run the loop, and return modified_code — which is never reassigned
from the input code. `parsed` abstracts the outcome of parse_string on
`code`. -/
def fix_string (parsed : Option (List FuncModel)) (code : String) :
    Except PyExc String :=
  match parsed with
  | none => Except.error PyExc.parseErrorExc
  | some funcs =>
    match fix_string_loop funcs with
    | Except.error e => Except.error e
    | Except.ok _ => Except.ok code

/-- A file whose source does not parse. -/
def exBadParseFile : FileModel :=
  { size_ok := true, parsed := none }

/-- A well-formed function without a docstring whose generation succeeds. -/
def exGoodFunc : FuncModel :=
  { info :=
      { function_name := "ok_func"
        line_number := 1
        end_line_number := 2
        has_docstring := false }
    gen := Except.ok "Generated docstring." }

/-- A parseable file containing one function. -/
def exGoodFile : FileModel :=
  { size_ok := true, parsed := some [exGoodFunc] }

/-- C6 counterexample: a batch of two files whose first member fails to
parse does not continue — the uncaught ProcessingError propagates out of
_process_directory, no per-file result records the parse error, and the
second file is never processed. -/
theorem parse_failure_batch_counterexample :
    process_directory false [exBadParseFile, exGoodFile] =
      Except.error PyExc.processingErrorExc := rfl

/-- A parse failure makes _process_file raise ProcessingError whatever the
size check says. -/
theorem process_file_parse_failure (dr : Bool) (fm : FileModel)
    (h : fm.parsed = none) :
    process_file dr fm = Except.error PyExc.processingErrorExc := by
  unfold process_file process_file_body
  rw [h]
  cases hs : fm.size_ok <;> simp

/-- C6 amended: a file whose source cannot be parsed raises ParseError, which
_process_file wraps into ProcessingError; the directory loop catches only
FileNotFoundError, ValueError and OSError, so the ProcessingError aborts the
whole batch: the remaining files are not processed and no error string is
recorded in any per-file result. -/
theorem parse_failure_aborts_batch (dr : Bool) (fm : FileModel)
    (rest : List FileModel) (h : fm.parsed = none) :
    process_directory dr (fm :: rest) = Except.error PyExc.processingErrorExc := by
  rw [process_directory, process_file_parse_failure dr fm h]
  rfl

/-- C6 witness input: a one-file batch whose only file fails to parse,
processed in dry-run mode. -/
theorem parse_failure_aborts_batch_witness :
    process_directory true [exBadParseFile] =
      Except.error PyExc.processingErrorExc :=
  parse_failure_aborts_batch true exBadParseFile [] rfl

/-- A function without a docstring whose generation raises APIError. -/
def exApiFailFunc : FuncModel :=
  { info :=
      { function_name := "first_func"
        line_number := 1
        end_line_number := 2
        has_docstring := false }
    gen := Except.error PyExc.apiErrorExc }

/-- A second function, after the failing one, whose generation succeeds. -/
def exSecondFunc : FuncModel :=
  { info :=
      { function_name := "second_func"
        line_number := 4
        end_line_number := 5
        has_docstring := false }
    gen := Except.ok "Generated docstring." }

/-- A parseable file in which generation for the first function raises APIError. -/
def exApiFailFile : FileModel :=
  { size_ok := true, parsed := some [exApiFailFunc, exSecondFunc] }

/-- C7 counterexample: the providers signal generation failure with APIError,
which neither _process_function (catches OSError) nor _process_single_function
(catches ValueError, RuntimeError, OSError) catches: processing of the whole
file aborts with ProcessingError, no warning is recorded in any result, and
the remaining function never attempts generation. -/
theorem generation_failure_aborts_file_counterexample :
    process_file false exApiFailFile = Except.error PyExc.processingErrorExc := rfl

/-- Generation outcomes that _process_file isolates at function granularity:
success, or a ValueError, RuntimeError or OSError raised by the generation
call. -/
def gen_isolated (f : FuncModel) : Bool :=
  match f.gen with
  | Except.ok _ => true
  | Except.error PyExc.valueErrorExc => true
  | Except.error PyExc.runtimeErrorExc => true
  | Except.error PyExc.osErrorExc => true
  | Except.error _ => false

/-- A function whose generation succeeds. -/
def gen_ok (f : FuncModel) : Bool :=
  match f.gen with
  | Except.ok _ => true
  | Except.error _ => false

/-- A function whose generation failure gets recorded as an error string
(ValueError or RuntimeError; a caught OSError is silently swallowed inside
_process_function). -/
def gen_recorded (f : FuncModel) : Bool :=
  match f.gen with
  | Except.error PyExc.valueErrorExc => true
  | Except.error PyExc.runtimeErrorExc => true
  | _ => false

theorem process_functions_isolated (fs : List FuncModel)
    (h : ∀ f ∈ fs, gen_isolated f = true) :
    ∃ cs errs, process_functions fs = Except.ok (cs, errs) ∧
      cs.length = (fs.filter gen_ok).length ∧
      errs.length = (fs.filter gen_recorded).length := by
  induction fs with
  | nil => exact ⟨[], [], rfl, rfl, rfl⟩
  | cons f fs ih =>
    have hf := h f (List.mem_cons_self f fs)
    obtain ⟨cs, errs, h1, h2, h3⟩ :=
      ih (fun g hg => h g (List.mem_cons_of_mem f hg))
    cases hg : f.gen with
    | ok content =>
      have hok : gen_ok f = true := by unfold gen_ok; rw [hg]
      have hrec : gen_recorded f = false := by unfold gen_recorded; rw [hg]
      obtain ⟨ch, hsf⟩ : ∃ ch, process_single_function f = Except.ok (some ch, none) := by
        unfold process_single_function process_function
        rw [hg]
        cases hd : f.info.has_docstring with
        | false => exact ⟨_, rfl⟩
        | true => exact ⟨_, rfl⟩
      refine ⟨ch :: cs, errs, ?_, ?_, ?_⟩
      · unfold process_functions
        rw [hsf, h1]
      · simp [List.filter_cons, hok, h2]
      · simp [List.filter_cons, hrec, h3]
    | error e =>
      have hok : gen_ok f = false := by unfold gen_ok; rw [hg]
      cases e with
      | valueErrorExc =>
        have hrec : gen_recorded f = true := by unfold gen_recorded; rw [hg]
        have hsf : process_single_function f =
            Except.ok (none, some ("Failed to process " ++ f.info.function_name)) := by
          unfold process_single_function process_function
          rw [hg]
        refine ⟨cs, ("Failed to process " ++ f.info.function_name) :: errs, ?_, ?_, ?_⟩
        · unfold process_functions
          rw [hsf, h1]
        · simp [List.filter_cons, hok, h2]
        · simp [List.filter_cons, hrec, h3]
      | runtimeErrorExc =>
        have hrec : gen_recorded f = true := by unfold gen_recorded; rw [hg]
        have hsf : process_single_function f =
            Except.ok (none, some ("Failed to process " ++ f.info.function_name)) := by
          unfold process_single_function process_function
          rw [hg]
        refine ⟨cs, ("Failed to process " ++ f.info.function_name) :: errs, ?_, ?_, ?_⟩
        · unfold process_functions
          rw [hsf, h1]
        · simp [List.filter_cons, hok, h2]
        · simp [List.filter_cons, hrec, h3]
      | osErrorExc =>
        have hrec : gen_recorded f = false := by unfold gen_recorded; rw [hg]
        have hsf : process_single_function f = Except.ok (none, none) := by
          unfold process_single_function process_function
          rw [hg]
        refine ⟨cs, errs, ?_, ?_, ?_⟩
        · unfold process_functions
          rw [hsf, h1]
        · simp [List.filter_cons, hok, h2]
        · simp [List.filter_cons, hrec, h3]
      | parseErrorExc => rw [gen_isolated, hg] at hf; exact Bool.noConfusion hf
      | processingErrorExc => rw [gen_isolated, hg] at hf; exact Bool.noConfusion hf
      | fileNotFoundExc => rw [gen_isolated, hg] at hf; exact Bool.noConfusion hf
      | apiErrorExc => rw [gen_isolated, hg] at hf; exact Bool.noConfusion hf

/-- C7 amended: generation failures are isolated at function granularity only
for ValueError and RuntimeError — recorded as error strings in the
result, with every remaining filtered function still attempting generation —
and for OSError, swallowed without a record; with only such outcomes the file
is processed to completion: one change per successful function, one recorded
error string per ValueError/RuntimeError failure.  (Other exceptions, among them the APIError of the providers, abort the file; see the counterexample.) -/
theorem generation_failures_isolated (dr : Bool) (fm : FileModel)
    (fs : List FuncModel) (hp : fm.parsed = some fs) (hsz : fm.size_ok = true)
    (h : ∀ f ∈ target_functions fs, gen_isolated f = true) :
    ∃ res, process_file dr fm = Except.ok res ∧
      res.changes.length = ((target_functions fs).filter gen_ok).length ∧
      res.errors.length = ((target_functions fs).filter gen_recorded).length := by
  obtain ⟨cs, errs, h1, h2, h3⟩ := process_functions_isolated (target_functions fs) h
  refine
    ⟨{ changes := cs
       errors := errs
       warnings := []
       success := errs.isEmpty
       docstrings_found := fs.length
       docstrings_modified := (cs.filter (fun c => c.change_type == "modify")).length
       docstrings_added := (cs.filter (fun c => c.change_type == "add")).length },
      ?_, ?_, ?_⟩
  · simp [process_file, process_file_body, hsz, hp, h1]
  · exact h2
  · exact h3

/-- A function whose generation raises ValueError. -/
def exValueFailFunc : FuncModel :=
  { info :=
      { function_name := "broken_func"
        line_number := 1
        end_line_number := 2
        has_docstring := false }
    gen := Except.error PyExc.valueErrorExc }

/-- The functions of the C7 witness file: a ValueError failure followed by a
success. -/
def exIsolatedFuncs : List FuncModel :=
  [exValueFailFunc, exSecondFunc]

/-- A parseable file with one ValueError generation failure and one success. -/
def exIsolatedFile : FileModel :=
  { size_ok := true, parsed := some exIsolatedFuncs }

/-- C7 witness input: with one ValueError failure and one success the file is
processed to completion with one change and one recorded error. -/
theorem generation_failures_isolated_witness :
    ∃ res, process_file false exIsolatedFile = Except.ok res ∧
      res.changes.length =
        ((target_functions exIsolatedFuncs).filter gen_ok).length ∧
      res.errors.length =
        ((target_functions exIsolatedFuncs).filter gen_recorded).length :=
  generation_failures_isolated false exIsolatedFile exIsolatedFuncs rfl rfl
    (by decide)

/-- C10: whenever fix_string returns normally, the returned string is exactly
the input code: the loop only generates and discards docstrings, and
modified_code is never reassigned. -/
theorem fix_string_identity (parsed : Option (List FuncModel)) (code s : String)
    (h : fix_string parsed code = Except.ok s) : s = code := by
  cases parsed with
  | none => simp [fix_string] at h
  | some funcs =>
    cases hl : fix_string_loop funcs with
    | error e => simp [fix_string, hl] at h
    | ok u =>
      simp only [fix_string, hl, Except.ok.injEq] at h
      exact h.symm

/-- C10 witness input: fix_string on a parse result with one function without
a docstring and successful generation returns the input code. -/
theorem fix_string_identity_witness :
    fix_string (some [exGoodFunc]) "def ok_func(): pass" =
      Except.ok "def ok_func(): pass" ∧
    "def ok_func(): pass" = "def ok_func(): pass" :=
  ⟨rfl, fix_string_identity (some [exGoodFunc]) "def ok_func(): pass"
    "def ok_func(): pass" rfl⟩

end Docstringinator
